import Mathlib

set_option maxRecDepth 4000

/-
Verification development for the IC50 determination notebook
(incubator/IC50_synthetic-bayesian.ipynb).

The notebook generates synthetic dose-response data for three drugs, assembles
a tabular dataset, declares a Bayesian logistic-decay model in PyMC3 and runs
Metropolis sampling. Below, each step of the notebook is given a shallow
embedding: numpy arrays become lists or index functions, random draws are
modelled by an explicit standard-normal source passed as a parameter, and the
probabilistic model declaration becomes a record of prior and likelihood
distribution expressions. Machine floats are modelled by real numbers.
-/

namespace IC50

/-! ## Synthetic data generation (notebook cell 2) -/

/-- The concentration grid, from
np.concatenate([np.arange(0, 100, 10), np.arange(5, 21, 1),
np.arange(40, 51, 1), np.arange(85, 96, 1)]). The four pieces have
10, 16, 11 and 11 entries, 48 in total. -/
def x_concs : List ℕ :=
  (List.range 10).map (fun k => 10 * k)
    ++ (List.range 16).map (fun k => 5 + k)
    ++ (List.range 11).map (fun k => 40 + k)
    ++ (List.range 11).map (fun k => 85 + k)

/-- The true IC50 values of the three simulated drugs: np.array([42, 13, 88]). -/
def ic50_true : List ℕ := [42, 13, 88]

/-- The shared true response amplitude: beta_true = 1. -/
def beta_true : ℝ := 1

/-- The standard deviation of the simulated observation noise, 0.15, the second
argument of np.random.normal(0, 0.15, size=y_true.shape). -/
def noise_sd : ℝ := 0.15

/-- A draw from np.random.normal(mu, sd), modelled by reparametrization through
an explicit standard-normal variate z: the draw is mu + sd * z. -/
def normalDraw (mu sd z : ℝ) : ℝ := mu + sd * z

/-- The noiseless response expression beta_true / (1 + np.exp(c - t)) that the
broadcast y_true = beta_true / (1 + np.exp(x_concs - ic50_true)) applies
entrywise to a concentration c and a true IC50 value t. -/
noncomputable def syntheticResponse (c t : ℝ) : ℝ :=
  beta_true / (1 + Real.exp (c - t))

/-- Entry (j, g) of the (48, 3) array y_true: the noiseless response of drug g
at the j-th grid concentration. -/
noncomputable def y_true (j g : ℕ) : ℝ :=
  syntheticResponse (x_concs.getD j 0 : ℝ) (ic50_true.getD g 0 : ℝ)

/-- Entry (j, g) of y_noisy = y_true + np.random.normal(0, 0.15, size=y_true.shape).
The standard-normal source z supplies one independent variate per entry; the
mean 0 and the scale 0.15 are the same for every entry (homoskedastic noise). -/
noncomputable def y_noisy (z : ℕ → ℕ → ℝ) (j g : ℕ) : ℝ :=
  y_true j g + normalDraw 0 noise_sd (z j g)

/-! ## Tabular dataset assembly (notebook cells 5 and 9) -/

/-- The concentrations column: np.concatenate([x_concs] * ic50_true.shape[1])
stacks the grid once per drug. -/
def concentrationsCol : List ℕ := (List.replicate ic50_true.length x_concs).flatten

/-- The measurements column: y_noisy.flatten(order="F") of the (48, 3) array
lists column g = 0, then column g = 1, then column g = 2, each column running
over the 48 grid positions j in order. -/
noncomputable def measurementsCol (z : ℕ → ℕ → ℝ) : List ℝ :=
  ((List.range ic50_true.length).map
    (fun g => (List.range x_concs.length).map (fun j => y_noisy z j g))).flatten

/-- The drug column: for i in range(3): drugs.extend([i] * x_concs.shape[0])
produces 48 copies of 0, then 48 copies of 1, then 48 copies of 2. -/
def drugsCol : List ℕ :=
  ((List.range ic50_true.length).map (fun g => List.replicate x_concs.length g)).flatten

/-- The sklearn LabelEncoder fit_transform: the classes are the distinct input
values in sorted order, and each input value is replaced by its position in
that class list, a dense index in 0..k-1 for k distinct values. -/
def labelEncode (xs : List ℕ) : List ℕ :=
  xs.map (fun x => (List.insertionSort (· ≤ ·) xs.dedup).indexOf x)

/-- The idxs column: le.fit_transform(data["drug"]). -/
def idxsCol : List ℕ := labelEncode drugsCol

/-- One row of the assembled DataFrame, restricted to the three columns the
model reads: concentration, measurement and encoded drug index. -/
structure Obs where
  conc : ℝ
  meas : ℝ
  idx : ℕ

/-- Default row used with List.getD. -/
def obsDefault : Obs := ⟨0, 0, 0⟩

/-- The DataFrame assembly of cell 9, generalized to arbitrary column inputs:
the three columns are zipped positionally into rows, with the drug column
passed through the label encoder. The source performs no validation of any
field, in particular none of the concentration sign. -/
def buildData (concs meas : List ℝ) (drugs : List ℕ) : List Obs :=
  List.zipWith3 (fun c m i => ⟨c, m, i⟩) concs meas (labelEncode drugs)

/-- Taxonomy of input validation failures named by the specification. The
source notebook contains no raise statement, so no code path produces one. -/
inductive InputError where
  | emptyDrugGroup
  | negativeConcentration

/-- Error-aware view of the dataset construction: the source applies no check
whatsoever, so construction always succeeds on every input. -/
def buildDataChecked (concs meas : List ℝ) (drugs : List ℕ) :
    Except InputError (List Obs) :=
  Except.ok (buildData concs meas drugs)

/-! ## Model declaration (notebook cell 11) -/

/-- Column projections of an observation list. -/
def obsIdxs (data : List Obs) : List ℕ := data.map Obs.idx

/-- Concentration column of an observation list. -/
def obsConcs (data : List Obs) : List ℝ := data.map Obs.conc

/-- Measurement column of an observation list. -/
def obsMeas (data : List Obs) : List ℝ := data.map Obs.meas

/-- datasize = len(set(data["idxs"])): the number of distinct drug indices
actually present in the data. -/
def datasize (data : List Obs) : ℕ := (obsIdxs data).dedup.length

/-- A scalar distribution expression, as handed to the sampler: a Normal with
given mean and standard deviation, or a HalfCauchy with given scale. -/
inductive Dist where
  | normal (mu sd : ℝ)
  | halfCauchy (scale : ℝ)

/-- Density of a distribution expression. The HalfCauchy density, following
the library semantics of pm.HalfCauchy, vanishes on negative arguments: its
support is restricted to nonnegative values. -/
noncomputable def Dist.pdf : Dist → ℝ → ℝ
  | .normal mu sd, x =>
      (1 / (sd * Real.sqrt (2 * Real.pi))) * Real.exp (-((x - mu) ^ 2 / (2 * sd ^ 2)))
  | .halfCauchy s, x =>
      if 0 ≤ x then 2 / (Real.pi * s * (1 + (x / s) ^ 2)) else 0

/-- Log-density of a distribution expression. -/
noncomputable def Dist.logPdf (d : Dist) (x : ℝ) : ℝ := Real.log (d.pdf x)

/-- A vector-valued prior declaration such as pm.Normal("beta", mu=0,
sd=100 ** 2, shape=datasize): a shape and, for each component index, the
scalar distribution broadcast to it. The hyperparameters are numeric
constants, so components of the vector share no latent structure. -/
structure VecPrior where
  shape : ℕ
  component : ℕ → Dist

/-- beta = pm.Normal("beta", mu=0, sd=100 ** 2, shape=datasize). -/
def modelBeta (data : List Obs) : VecPrior :=
  ⟨datasize data, fun _ => Dist.normal 0 (100 ^ 2)⟩

/-- noise = pm.HalfCauchy("noise", beta=100 ** 2, shape=datasize); the beta
keyword of pm.HalfCauchy is its scale parameter. -/
def modelNoise (data : List Obs) : VecPrior :=
  ⟨datasize data, fun _ => Dist.halfCauchy (100 ^ 2)⟩

/-- ic50 = pm.Normal("IC50", sd=100 ** 2, shape=datasize); the mean keyword mu
of pm.Normal defaults to 0. -/
def modelIC50 (data : List Obs) : VecPrior :=
  ⟨datasize data, fun _ => Dist.normal 0 (100 ^ 2)⟩

/-- One joint assignment of values to the three per-drug parameter vectors,
indexed by encoded drug index. -/
structure Params where
  beta : ℕ → ℝ
  noise : ℕ → ℝ
  ic50 : ℕ → ℝ

/-- The deterministic node measurements = beta[idxs] / (1 + tt.exp(
concentrations - ic50[idxs])): elementwise division of the fancy-indexed beta
vector by 1 plus the elementwise exponential of the broadcast difference. -/
noncomputable def measurementsDet (data : List Obs) (θ : Params) : List ℝ :=
  List.zipWith (· / ·) ((obsIdxs data).map θ.beta)
    (List.zipWith (fun c t => 1 + Real.exp (c - t))
      (obsConcs data) ((obsIdxs data).map θ.ic50))

/-- The per-observation standard deviations noise[idxs] of the likelihood. -/
def likSds (data : List Obs) (θ : Params) : List ℝ := (obsIdxs data).map θ.noise

/-- The observed node y_like = pm.Normal("y_like", mu=measurements,
sd=noise[idxs], observed=data["measurements"]): one scalar Normal per
observation, with the vectorized mean and standard deviation. -/
noncomputable def yLike (data : List Obs) (θ : Params) : List Dist :=
  List.zipWith Dist.normal (measurementsDet data θ) (likSds data θ)

/-- The log-likelihood contribution of the observed node, as PyMC3 builds it:
the sum over observations of the scalar log-density of the corresponding
component at the observed measurement. -/
noncomputable def logLik (data : List Obs) (θ : Params) : ℝ :=
  (List.zipWith (fun d x => Dist.logPdf d x) (yLike data θ) (obsMeas data)).sum

/-- The complete model declaration of cell 11. -/
structure ModelDecl where
  betaPrior : VecPrior
  noisePrior : VecPrior
  ic50Prior : VecPrior
  likelihood : Params → List Dist

/-- The with pm.Model() block of cell 11: computes datasize and declares the
three priors, the deterministic link and the observed likelihood. The block
contains no validation and no raise statement. -/
noncomputable def declareModel (data : List Obs) : ModelDecl :=
  { betaPrior := modelBeta data
    noisePrior := modelNoise data
    ic50Prior := modelIC50 data
    likelihood := fun θ => yLike data θ }

/-- Error-aware view of the model declaration: since the source block raises
nothing, declaration always succeeds on every input. -/
noncomputable def declareModelChecked (data : List Obs) : Except InputError ModelDecl :=
  Except.ok (declareModel data)

/-! ## Inference invocation and trace consumption (notebook cells 12, 13, 15) -/

/-- Step methods the notebook chooses from; pm.Metropolis is the random-walk
Metropolis-Hastings sampler. -/
inductive StepMethod where
  | metropolis
  | nuts

/-- Chain initialization strategies; pm.find_MAP is the
maximum-a-posteriori search. -/
inductive InitStrategy where
  | mapEstimate
  | defaultInit

/-- The argument record of a pm.sample call. -/
structure SamplingCall where
  draws : ℕ
  step : StepMethod
  start : InitStrategy

/-- trace = pm.sample(draws=10000, step=pm.Metropolis(), start=pm.find_MAP()). -/
def inferenceCall : SamplingCall :=
  ⟨10000, StepMethod.metropolis, InitStrategy.mapEstimate⟩

/-- The number of initial draws sliced away by trace[5000:]. -/
def burnIn : ℕ := 5000

/-- The trace slice pm.traceplot consumes: trace[5000:]. -/
def traceplotInput {α : Type} (trace : List α) : List α := trace.drop burnIn

/-- The trace slice pm.summary consumes: trace[5000:]. -/
def summaryInput {α : Type} (trace : List α) : List α := trace.drop burnIn

/-! ## Concrete instances used by witnesses and counterexamples -/

/-- The all-zeroes standard-normal source, a concrete noise instantiation. -/
def zeroDraws : ℕ → ℕ → ℝ := fun _ _ => 0

/-- A dataset for a three-drug study in which drug 1 contributes zero
observations: rows exist only for drugs 0 and 2. -/
def missingDrugData : List Obs := buildData [1, 50, 5] [0.9, 0.1, 0.8] [0, 0, 2]

/-- A dataset whose index column is the label encoding of the raw drug
labels 7, 3, 7. -/
def encodedData : List Obs := [⟨0, 0, 1⟩, ⟨1, 0, 0⟩, ⟨2, 0, 1⟩]

/-- A one-row dataset with concentration 2, measurement 7, drug index 0. -/
def obsW : List Obs := [⟨2, 7, 0⟩]

/-- A concrete parameter assignment: beta constantly 3, noise constantly 4,
ic50 constantly 5. -/
def paramsW : Params := ⟨fun _ => 3, fun _ => 4, fun _ => 5⟩

/-! ## Theorems -/

/-- Membership in the sorted class list of the label encoder. -/
lemma mem_sortedClasses {xs : List ℕ} {x : ℕ} (h : x ∈ xs) :
    x ∈ List.insertionSort (· ≤ ·) xs.dedup :=
  ((List.perm_insertionSort _ xs.dedup).mem_iff).mpr (List.mem_dedup.mpr h)

/-- The class list has one entry per distinct input value. -/
lemma sortedClasses_length (xs : List ℕ) :
    (List.insertionSort (· ≤ ·) xs.dedup).length = xs.dedup.length :=
  (List.perm_insertionSort _ xs.dedup).length_eq

/-- Every encoded value is below the number of distinct input values. -/
lemma labelEncode_mem_lt {xs : List ℕ} {v : ℕ} (h : v ∈ labelEncode xs) :
    v < xs.dedup.length := by
  simp only [labelEncode, List.mem_map] at h
  obtain ⟨x, hx, rfl⟩ := h
  rw [← sortedClasses_length xs]
  exact List.indexOf_lt_length.mpr (mem_sortedClasses hx)

/-- Encoding preserves the number of distinct values. -/
lemma labelEncode_dedup_length (xs : List ℕ) :
    (labelEncode xs).dedup.length = xs.dedup.length := by
  have h1 : (labelEncode xs).toFinset =
      xs.toFinset.image (fun x => (List.insertionSort (· ≤ ·) xs.dedup).indexOf x) := by
    ext v
    simp [labelEncode]
  have hinj :
      Set.InjOn (fun x => (List.insertionSort (· ≤ ·) xs.dedup).indexOf x) xs.toFinset := by
    intro a ha b hb hab
    simp only [Finset.mem_coe, List.mem_toFinset] at ha hb
    exact (List.indexOf_inj (mem_sortedClasses ha) (mem_sortedClasses hb)).mp hab
  calc (labelEncode xs).dedup.length
      = (labelEncode xs).toFinset.card := (List.card_toFinset _).symm
    _ = (xs.toFinset.image
          (fun x => (List.insertionSort (· ≤ ·) xs.dedup).indexOf x)).card := by rw [h1]
    _ = xs.toFinset.card := Finset.card_image_of_injOn hinj
    _ = xs.dedup.length := List.card_toFinset xs

/-- C10: when the index column is the label encoding of raw drug labels (as
in the assembled dataset), every per-observation lookup into the per-drug
parameter vectors is in bounds: the three vectors have shape
datasize = len(set(idxs)), every index value is strictly below that shape,
and in fact the index values fill the dense range 0..datasize-1 exactly. -/
theorem indexing_in_bounds (data : List Obs) (drugs : List ℕ)
    (henc : obsIdxs data = labelEncode drugs) :
    (modelBeta data).shape = datasize data ∧
    (modelNoise data).shape = datasize data ∧
    (modelIC50 data).shape = datasize data ∧
    (∀ v ∈ obsIdxs data, v < datasize data) ∧
    (obsIdxs data).toFinset = Finset.range (datasize data) := by
  have hlt : ∀ v ∈ obsIdxs data, v < datasize data := by
    intro v hv
    rw [henc] at hv
    have hb := labelEncode_mem_lt hv
    rw [datasize, henc, labelEncode_dedup_length]
    exact hb
  refine ⟨rfl, rfl, rfl, hlt, ?_⟩
  apply Finset.eq_of_subset_of_card_le
  · intro v hv
    rw [List.mem_toFinset] at hv
    exact Finset.mem_range.mpr (hlt v hv)
  · rw [Finset.card_range, List.card_toFinset]
    exact le_refl _

/-- Witness for C10 on a dataset whose index column encodes the labels
7, 3, 7: the index values fill the dense range below datasize. -/
theorem indexing_in_bounds_instance :
    (obsIdxs encodedData).toFinset = Finset.range (datasize encodedData) :=
  (indexing_in_bounds encodedData [7, 3, 7] (by decide)).2.2.2.2

/-- C6: for every drug g, the synthetic noiseless response function evaluated
exactly at concentration c equal to the true IC50 of g equals beta_true / 2,
the half-maximal point. Over the reals the identity is exact. -/
theorem half_max_at_true_ic50 (g : Fin 3) :
    syntheticResponse (ic50_true.getD g 0 : ℝ) (ic50_true.getD g 0 : ℝ) = beta_true / 2 := by
  unfold syntheticResponse
  rw [sub_self, Real.exp_zero]
  norm_num

/-- C5: for every drug g and grid position j, the generator computes the
noiseless response as beta_true / (1 + exp(c - t_g)) (the product form also
records that the denominator never vanishes), and then adds Gaussian noise of
mean 0 and the single fixed standard deviation noise_sd, the same scale for
every observation (homoskedastic), independently through the per-entry
standard-normal source z. -/
theorem generator_formula (z : ℕ → ℕ → ℝ) (j : Fin 48) (g : Fin 3) :
    y_true j g =
      beta_true / (1 + Real.exp ((x_concs.getD j 0 : ℝ) - (ic50_true.getD g 0 : ℝ))) ∧
    (1 + Real.exp ((x_concs.getD j 0 : ℝ) - (ic50_true.getD g 0 : ℝ))) * y_true j g =
      beta_true ∧
    y_noisy z j g = y_true j g + noise_sd * z j g := by
  have hpos : 0 < 1 + Real.exp ((x_concs.getD j 0 : ℝ) - (ic50_true.getD g 0 : ℝ)) := by
    positivity
  refine ⟨rfl, ?_, ?_⟩
  · show (1 + Real.exp ((x_concs.getD j 0 : ℝ) - (ic50_true.getD g 0 : ℝ))) *
      (beta_true / (1 + Real.exp ((x_concs.getD j 0 : ℝ) - (ic50_true.getD g 0 : ℝ)))) =
      beta_true
    rw [mul_comm, div_mul_cancel₀ _ (ne_of_gt hpos)]
  · show y_true j g + normalDraw 0 noise_sd (z j g) = y_true j g + noise_sd * z j g
    simp [normalDraw]

/-- C2: the declared model places, for each drug, exactly one prior per
parameter: every component of the beta vector is Normal(0, 100 squared),
every component of the noise vector is HalfCauchy(100 squared) whose density
vanishes on negative values, and every component of the ic50 vector is
Normal(0, 100 squared) (the mu keyword of pm.Normal defaults to 0); each
vector has one component per distinct drug index in the data, and the
hyperparameters are numeric constants, so there is no pooling between
drugs. -/
theorem priors_per_drug (data : List Obs) :
    (modelBeta data).shape = (obsIdxs data).toFinset.card ∧
    (∀ g : ℕ, (modelBeta data).component g = Dist.normal 0 (100 ^ 2)) ∧
    (modelNoise data).shape = (obsIdxs data).toFinset.card ∧
    (∀ g : ℕ, (modelNoise data).component g = Dist.halfCauchy (100 ^ 2)) ∧
    (∀ x : ℝ, x < 0 → Dist.pdf (Dist.halfCauchy (100 ^ 2)) x = 0) ∧
    (modelIC50 data).shape = (obsIdxs data).toFinset.card ∧
    (∀ g : ℕ, (modelIC50 data).component g = Dist.normal 0 (100 ^ 2)) := by
  refine ⟨?_, fun g => rfl, ?_, fun g => rfl, ?_, ?_, fun g => rfl⟩
  · rw [List.card_toFinset]; rfl
  · rw [List.card_toFinset]; rfl
  · intro x hx
    simp [Dist.pdf, not_le.mpr hx]
  · rw [List.card_toFinset]; rfl

/-- Witness for C2 at the empty dataset: the HalfCauchy noise prior density
vanishes at the negative point -1. -/
theorem priors_per_drug_instance :
    Dist.pdf (Dist.halfCauchy (100 ^ 2)) (-1) = 0 :=
  (priors_per_drug []).2.2.2.2.1 (-1) (by norm_num)

/-- C3 counterexample: on the concrete three-drug dataset in which drug 1 has
zero observations, the model declaration does not raise an InputError; it
silently proceeds, sizing the parameter vectors by the 2 distinct indices
present. This refutes the claim that declaration fails fast on a
zero-observation drug group. -/
theorem declare_silently_accepts_empty_group :
    (¬ ∃ e : InputError, declareModelChecked missingDrugData = Except.error e) ∧
    datasize missingDrugData = 2 := by
  constructor
  · rintro ⟨e, he⟩
    simp [declareModelChecked] at he
  · decide

/-- C3 amended: declaring the model never raises an InputError on any input
dataset; the declaration block performs no validation, and the parameter
vectors are sized by the number of distinct drug indices actually present, so
a drug with zero observations is silently dropped rather than rejected. -/
theorem declare_never_raises (data : List Obs) :
    declareModelChecked data = Except.ok (declareModel data) ∧
    (∀ e : InputError, declareModelChecked data ≠ Except.error e) ∧
    (declareModel data).betaPrior.shape = datasize data ∧
    (declareModel data).noisePrior.shape = datasize data ∧
    (declareModel data).ic50Prior.shape = datasize data := by
  refine ⟨rfl, ?_, rfl, rfl, rfl⟩
  intro e he
  simp [declareModelChecked] at he

/-- Witness for the amended C3 at the empty dataset. -/
theorem declare_never_raises_instance :
    declareModelChecked [] ≠ Except.error InputError.emptyDrugGroup :=
  (declare_never_raises []).2.1 InputError.emptyDrugGroup

/-- C9 counterexample: a concrete input containing a negative concentration
(-5) is not rejected by the dataset construction: no InputError is raised and
the rows are built unchanged, negative concentration included. This refutes
the claim that construction rejects negative concentrations. -/
theorem build_accepts_negative_concentration :
    (¬ ∃ e : InputError, buildDataChecked [-5, 10] [0.5, 0.6] [0, 1] = Except.error e) ∧
    buildData [-5, 10] [0.5, 0.6] [0, 1] = [⟨-5, 0.5, 0⟩, ⟨10, 0.6, 1⟩] := by
  constructor
  · rintro ⟨e, he⟩
    simp [buildDataChecked] at he
  · rfl

/-- C9 amended: the dataset construction performs no validation at all: every
input, negative or zero concentrations included, is accepted unchanged and no
InputError is ever raised. -/
theorem build_never_raises (concs meas : List ℝ) (drugs : List ℕ) :
    buildDataChecked concs meas drugs = Except.ok (buildData concs meas drugs) ∧
    ∀ e : InputError, buildDataChecked concs meas drugs ≠ Except.error e := by
  refine ⟨rfl, ?_⟩
  intro e he
  simp [buildDataChecked] at he

/-- Witness for the amended C9: the input with concentration exactly zero is
accepted (not rejected as a negative concentration would allegedly be). -/
theorem build_never_raises_instance :
    buildDataChecked [0] [1] [0] ≠ Except.error InputError.negativeConcentration :=
  (build_never_raises [0] [1] [0]).2 InputError.negativeConcentration

/-- C8: the inference invocation requests exactly 10000 draws from the
random-walk Metropolis step method with the chain started at the
maximum-a-posteriori point, and both trace consumers (pm.traceplot and
pm.summary) receive the slice trace[5000:], i.e. the trace with the first
5000 draws discarded as burn-in: element i of the consumed slice is element
5000 + i of the full trace, and a 10000-draw trace leaves 5000 draws. -/
theorem sampling_call_and_burn_in {α : Type} (tr : List α) :
    inferenceCall.draws = 10000 ∧
    inferenceCall.step = StepMethod.metropolis ∧
    inferenceCall.start = InitStrategy.mapEstimate ∧
    summaryInput tr = tr.drop 5000 ∧
    traceplotInput tr = tr.drop 5000 ∧
    (∀ i : ℕ, (summaryInput tr)[i]? = tr[5000 + i]?) ∧
    (tr.length = 10000 → (summaryInput tr).length = 5000) := by
  refine ⟨rfl, rfl, rfl, rfl, rfl, ?_, ?_⟩
  · intro i
    exact List.getElem?_drop tr 5000 i
  · intro h
    simp [summaryInput, burnIn, h]

/-- The observed node has one component per observation. -/
lemma yLike_length (data : List Obs) (θ : Params) :
    (yLike data θ).length = data.length := by
  simp only [yLike, measurementsDet, likSds, obsIdxs, obsConcs,
    List.length_zipWith, List.length_map]
  omega

/-- Component i of the observed node, read off through the vectorized
construction: a Normal whose mean applies the deterministic link to row i and
whose standard deviation is the noise component of the drug of row i. -/
lemma yLike_getD (data : List Obs) (θ : Params) (i : ℕ) (h : i < data.length) :
    (yLike data θ).getD i (Dist.normal 0 0) =
      Dist.normal
        (θ.beta (data.getD i obsDefault).idx /
          (1 + Real.exp ((data.getD i obsDefault).conc -
            θ.ic50 (data.getD i obsDefault).idx)))
        (θ.noise (data.getD i obsDefault).idx) := by
  have hy : i < (yLike data θ).length := by
    rw [yLike_length]
    exact h
  rw [List.getD_eq_getElem _ _ hy, List.getD_eq_getElem _ _ h]
  simp [yLike, measurementsDet, likSds, obsIdxs, obsConcs,
    List.getElem_zipWith, List.getElem_map]

/-- The log-likelihood PyMC3 assembles from the observed node is the sum over
observations of the scalar Normal log-density with the per-observation mean
and the per-drug standard deviation: the factorized form of conditional
independence given the parameters. -/
lemma logLik_eq_sum (data : List Obs) (θ : Params) :
    logLik data θ =
      (data.map (fun o =>
        Dist.logPdf
          (Dist.normal (θ.beta o.idx / (1 + Real.exp (o.conc - θ.ic50 o.idx)))
            (θ.noise o.idx))
          o.meas)).sum := by
  induction data with
  | nil => rfl
  | cons o rest ih =>
      have step : logLik (o :: rest) θ =
          Dist.logPdf
            (Dist.normal (θ.beta o.idx / (1 + Real.exp (o.conc - θ.ic50 o.idx)))
              (θ.noise o.idx))
            o.meas + logLik rest θ := rfl
      rw [step, ih, List.map_cons, List.sum_cons]

/-- C1: in the declared model, the likelihood of observation i is Normal with
mean beta_g / (1 + exp(concentration(i) - ic50_g)) and standard deviation
noise_g, where g is the drug index of observation i (so two observations of
the same drug share the same noise scale), and the joint log-likelihood is
the sum of the per-observation log-densities: the observations are
conditionally independent given the parameters. -/
theorem likelihood_per_observation (data : List Obs) (θ : Params) :
    (yLike data θ).length = data.length ∧
    (∀ i : ℕ, i < data.length →
      (yLike data θ).getD i (Dist.normal 0 0) =
        Dist.normal
          (θ.beta (data.getD i obsDefault).idx /
            (1 + Real.exp ((data.getD i obsDefault).conc -
              θ.ic50 (data.getD i obsDefault).idx)))
          (θ.noise (data.getD i obsDefault).idx)) ∧
    logLik data θ =
      (data.map (fun o =>
        Dist.logPdf
          (Dist.normal (θ.beta o.idx / (1 + Real.exp (o.conc - θ.ic50 o.idx)))
            (θ.noise o.idx))
          o.meas)).sum :=
  ⟨yLike_length data θ, fun i h => yLike_getD data θ i h, logLik_eq_sum data θ⟩

/-- Witness for C1 on the one-row dataset obsW under the constant parameter
assignment paramsW: the likelihood component of the single observation is the
Normal with the linked mean and the per-drug noise scale. -/
theorem likelihood_per_observation_instance :
    (yLike obsW paramsW).getD 0 (Dist.normal 0 0) =
      Dist.normal (3 / (1 + Real.exp (2 - 5))) 4 :=
  (likelihood_per_observation obsW paramsW).2.1 0 (by decide)

/-- Witness for C8 on a concrete 10000-element trace: 5000 draws remain after
the burn-in slice. -/
theorem sampling_call_and_burn_in_instance :
    (summaryInput (List.replicate 10000 (0 : ℕ))).length = 5000 :=
  (sampling_call_and_burn_in (List.replicate 10000 (0 : ℕ))).2.2.2.2.2.2
    (by rw [List.length_replicate])

/-- Element i of a mapped range, through getD. -/
lemma getD_map_range (f : ℕ → ℝ) {n i : ℕ} (h : i < n) :
    ((List.range n).map f).getD i 0 = f i := by
  rw [List.getD_eq_getElem _ _ (by simpa using h)]
  simp

/-- The drug column is block constant: entry i is i / 48. -/
lemma drugsCol_getD : ∀ i, i < 144 → drugsCol.getD i 99 = i / 48 := by decide

/-- The concentration column repeats the grid: entry i is grid entry i mod 48. -/
lemma concentrationsCol_getD :
    ∀ i, i < 144 → concentrationsCol.getD i 0 = x_concs.getD (i % 48) 0 := by decide

/-- The F-order flattened measurement column, split into its three drug
columns. -/
lemma measurementsCol_split (z : ℕ → ℕ → ℝ) :
    measurementsCol z =
      (List.range 48).map (fun j => y_noisy z j 0) ++
        ((List.range 48).map (fun j => y_noisy z j 1) ++
          (List.range 48).map (fun j => y_noisy z j 2)) := by
  have h3 : ic50_true.length = 3 := rfl
  have h48 : x_concs.length = 48 := by decide
  rw [measurementsCol]
  simp only [h3, h48]
  simp [show List.range 3 = [0, 1, 2] from rfl]

/-- Entry i of the flattened measurement column is the matrix entry at grid
position i mod 48 and drug i / 48. -/
lemma measurementsCol_getD (z : ℕ → ℕ → ℝ) :
    ∀ i, i < 144 → (measurementsCol z).getD i 0 = y_noisy z (i % 48) (i / 48) := by
  intro i h
  rw [measurementsCol_split z]
  by_cases h1 : i < 48
  · rw [List.getD_append _ _ _ _ (by simpa using h1), getD_map_range _ h1,
      Nat.mod_eq_of_lt h1, Nat.div_eq_of_lt h1]
  · push_neg at h1
    rw [List.getD_append_right _ _ _ _ (by simpa using h1)]
    simp only [List.length_map, List.length_range]
    by_cases h2 : i < 96
    · have hlt : i - 48 < 48 := by omega
      rw [List.getD_append _ _ _ _ (by simpa using hlt), getD_map_range _ hlt]
      have hmod : i % 48 = i - 48 := by omega
      have hdiv : i / 48 = 1 := by omega
      rw [hmod, hdiv]
    · push_neg at h2
      have h2b : 48 ≤ i - 48 := by omega
      rw [List.getD_append_right _ _ _ _ (by simpa using h2b)]
      simp only [List.length_map, List.length_range]
      have hlt : i - 48 - 48 < 48 := by omega
      rw [getD_map_range _ hlt]
      have hmod : i % 48 = i - 48 - 48 := by omega
      have hdiv : i / 48 = 2 := by omega
      rw [hmod, hdiv]

/-- C7: the assembled dataset has 48 x 3 = 144 rows; the encoded index column
coincides with the drug column; and for each drug g < 3 and grid position
j < 48 there is exactly one row index i < 144 carrying drug g at grid
position i mod 48 = j, and at that row the concentration is the j-th grid
value and the measurement is the generated noisy value y_noisy[j, g]: the
F-order flattening stays aligned with the repeated concentration vector and
the block-constant drug labels. -/
theorem dataset_aligned (z : ℕ → ℕ → ℝ) (g : Fin 3) (j : Fin 48) :
    concentrationsCol.length = 144 ∧
    drugsCol.length = 144 ∧
    (measurementsCol z).length = 144 ∧
    idxsCol = drugsCol ∧
    ∃! i : ℕ, i < 144 ∧ drugsCol.getD i 99 = (g : ℕ) ∧ i % 48 = (j : ℕ) ∧
      concentrationsCol.getD i 0 = x_concs.getD j 0 ∧
      (measurementsCol z).getD i 0 = y_noisy z j g := by
  have hg : (g : ℕ) < 3 := g.isLt
  have hj : (j : ℕ) < 48 := j.isLt
  have hi0 : 48 * (g : ℕ) + (j : ℕ) < 144 := by omega
  have hdiv : (48 * (g : ℕ) + (j : ℕ)) / 48 = (g : ℕ) := by omega
  have hmod : (48 * (g : ℕ) + (j : ℕ)) % 48 = (j : ℕ) := by omega
  refine ⟨by decide, by decide, ?_, by decide,
    48 * (g : ℕ) + (j : ℕ), ⟨hi0, ?_, hmod, ?_, ?_⟩, ?_⟩
  · rw [measurementsCol_split z]
    simp
  · rw [drugsCol_getD _ hi0, hdiv]
  · rw [concentrationsCol_getD _ hi0, hmod]
  · rw [measurementsCol_getD z _ hi0, hmod, hdiv]
  · rintro y ⟨hy144, hydrug, hymod, -, -⟩
    rw [drugsCol_getD _ hy144] at hydrug
    omega

/-- Witness for C7 with the all-zeroes noise source, at drug 2 and grid
position 5. -/
theorem dataset_aligned_instance :
    ∃! i : ℕ, i < 144 ∧ drugsCol.getD i 99 = 2 ∧ i % 48 = 5 ∧
      concentrationsCol.getD i 0 = x_concs.getD 5 0 ∧
      (measurementsCol zeroDraws).getD i 0 = y_noisy zeroDraws 5 2 :=
  (dataset_aligned zeroDraws 2 5).2.2.2.2

end IC50
